import Mathlib

/-!
Shallow embedding of two source fragments of this repository:

* `src/vs/workbench/contrib/terminalContrib/chat/browser/terminalChatWidget.ts`
  (classes `TerminalChatWidget` and `TerminalChatResponseEditor`), and
* `src/vs/platform/telemetry/browser/1dsAppender.ts`
  (class `OneDataSystemWebAppender`).

The widget's mutable UI state is embedded as an explicit record; each
imperative method becomes a pure function from state to state.  Calls out to
collaborators (the terminal instance's `runCommand`/`focus`, the chat
accessibility service's `acceptResponse`) are recorded in effect logs inside
the state, so that claims about "what was forwarded" become claims about
those logs.
-/

namespace TerminalChatSpec

/-- State of a `TerminalChatResponseEditor` instance, as far as the widget can
observe it: the text it shows, its shell type (fixed at construction), and the
visibility of its container element.  The field `id` tags the instance so that
object identity ("the same sub-widget instance") is expressible: it is
assigned from a fresh counter on construction and never changed. -/
structure ResponseEditorState where
  id : Nat
  text : String
  shellType : Option String
  visible : Bool
  deriving DecidableEq, Repr

/-- Chat message forwarded to the inline chat widget by `renderMessage`
(the argument of `updateChatMessage`). -/
structure ChatMessage where
  message : String
  requestId : String
  providerId : String
  deriving DecidableEq, Repr

/-- Observable state of a `TerminalChatWidget`, together with effect logs for
its collaborators.  `containerHidden` embeds the presence of the `hide` CSS
class on the container; `placeholder` and `info` are the inline chat widget's
placeholder and info texts; `inlineChatValue` is the inline chat input's text;
`responseEditor` is the optional response sub-widget (`none` when absent or
disposed); `nextEditorId` is the fresh-identity counter for sub-widget
construction; `runCommands` logs every `ITerminalInstance.runCommand(text,
shouldExecute)` call; `accessibilityResponses` logs every
`IChatAccessibilityService.acceptResponse(text, requestId)` call;
`terminalFocusCount` counts `ITerminalInstance.focus()` calls and
`inlineFocusCount` counts `InlineChatWidget.focus()` calls. -/
structure TerminalChatWidget where
  containerHidden : Bool
  placeholder : String
  info : String
  inlineChatValue : String
  responseEditor : Option ResponseEditorState
  nextEditorId : Nat
  chatMessage : Option ChatMessage
  followUps : Option String
  progress : Bool
  toolbar : Bool
  focusedContextKey : Bool
  visibleContextKey : Bool
  runCommands : List (String × Bool)
  accessibilityResponses : List (String × Nat)
  terminalFocusCount : Nat
  inlineFocusCount : Nat
  deriving DecidableEq, Repr

namespace TerminalChatWidget

/-- Placeholder text installed by `TerminalChatWidget._reset`
(localize key `default.placeholder`). -/
def defaultPlaceholder : String := "Ask how to do something in the terminal"

/-- Info text installed by `TerminalChatWidget._reset`
(localize key `welcome.1`). -/
def welcomeInfo : String := "AI-generated commands may be incorrect"

/-- Embedding of `TerminalChatWidget._reset`: sets the inline chat widget's
placeholder and info texts to their defaults. -/
def reset (s : TerminalChatWidget) : TerminalChatWidget :=
  { s with placeholder := defaultPlaceholder, info := welcomeInfo }

/-- Embedding of `TerminalChatWidget.reveal`: removes the `hide` class from
the container, sets the focused and visible context keys to true and focuses
the inline chat widget.  (The fixed-size `layout` call touches only geometry
and has no observable state here.) -/
def reveal (s : TerminalChatWidget) : TerminalChatWidget :=
  { s with
    containerHidden := false,
    focusedContextKey := true,
    visibleContextKey := true,
    inlineFocusCount := s.inlineFocusCount + 1 }

/-- Embedding of `TerminalChatWidget.hide`: adds the `hide` class, resets
placeholder and info, disposes the response sub-widget, clears the chat
message, follow-ups, progress and toolbar state, clears both context keys and
focuses the terminal instance. -/
def hide (s : TerminalChatWidget) : TerminalChatWidget :=
  let s1 := reset { s with containerHidden := true }
  { s1 with
    responseEditor := none,
    chatMessage := none,
    followUps := none,
    progress := false,
    toolbar := false,
    focusedContextKey := false,
    visibleContextKey := false,
    terminalFocusCount := s1.terminalFocusCount + 1 }

/-- Embedding of `TerminalChatWidget.renderTerminalCommand`: notifies the
accessibility service with the command and request id, shows the response
sub-widget when present, constructs it (with the command as initial text and
a fresh identity) when absent, and finally sets its text to the command. -/
def renderTerminalCommand (s : TerminalChatWidget) (command : String)
    (requestId : Nat) (shellType : Option String) : TerminalChatWidget :=
  let s0 := { s with
    accessibilityResponses := s.accessibilityResponses ++ [(command, requestId)] }
  let s1 :=
    match s0.responseEditor with
    | some e => { s0 with responseEditor := some { e with visible := true } }
    | none =>
        { s0 with
          responseEditor := some
            { id := s0.nextEditorId, text := command,
              shellType := shellType, visible := true },
          nextEditorId := s0.nextEditorId + 1 }
  { s1 with
    responseEditor := s1.responseEditor.map (fun (e : ResponseEditorState) => { e with text := command }) }

/-- Embedding of `TerminalChatWidget.renderMessage`: hides the response
sub-widget when present, forwards the message (with the string request id and
provider `terminal`) to the inline chat widget, and notifies the accessibility
service with the message and the numeric accessibility request id. -/
def renderMessage (s : TerminalChatWidget) (message : String)
    (accessibilityRequestId : Nat) (requestId : String) : TerminalChatWidget :=
  let s0 := { s with
    responseEditor := s.responseEditor.map (fun (e : ResponseEditorState) => { e with visible := false }) }
  let s1 := { s0 with
    chatMessage := some
      ({ message := message, requestId := requestId, providerId := "terminal" } : ChatMessage) }
  { s1 with
    accessibilityResponses := s1.accessibilityResponses ++ [(message, accessibilityRequestId)] }

/-- Embedding of `TerminalChatWidget.setValue`: writes the value (the empty
string when absent) to the inline chat input; when the value is falsy (absent
or the empty string) also hides the response sub-widget. -/
def setValue (s : TerminalChatWidget) (value : Option String) : TerminalChatWidget :=
  let s0 := { s with inlineChatValue := value.getD "" }
  if value = none ∨ value = some "" then
    { s0 with
      responseEditor := s0.responseEditor.map (fun (e : ResponseEditorState) => { e with visible := false }) }
  else s0

/-- Embedding of the JavaScript built-in `String.prototype.trim` applied in
`acceptCommand`: removes whitespace characters from both ends of the string
(whitespace per `Char.isWhitespace`). -/
def jsTrim (s : String) : String :=
  String.mk (((s.data.dropWhile Char.isWhitespace).reverse.dropWhile
    Char.isWhitespace).reverse)

/-- Embedding of `TerminalChatWidget.acceptCommand`: reads and trims the
response sub-widget's text (no-op when the sub-widget is absent or the trimmed
text is empty); otherwise forwards the trimmed text and the execute flag to
the terminal instance's `runCommand` and then hides the widget. -/
def acceptCommand (s : TerminalChatWidget) (shouldExecute : Bool) : TerminalChatWidget :=
  match s.responseEditor with
  | none => s
  | some e =>
    let value := jsTrim e.text
    if value = "" then s
    else hide { s with runCommands := s.runCommands ++ [(value, shouldExecute)] }

/-- Embedding of `TerminalChatWidget.input`: reads the inline chat input. -/
def input (s : TerminalChatWidget) : String := s.inlineChatValue

/-- State of a freshly constructed widget: hidden container removed is not
assumed; the constructor runs `_reset()`, leaves the response sub-widget
absent and all logs empty. -/
def initial : TerminalChatWidget :=
  { containerHidden := false,
    placeholder := defaultPlaceholder,
    info := welcomeInfo,
    inlineChatValue := "",
    responseEditor := none,
    nextEditorId := 0,
    chatMessage := none,
    followUps := none,
    progress := false,
    toolbar := false,
    focusedContextKey := false,
    visibleContextKey := false,
    runCommands := [],
    accessibilityResponses := [],
    terminalFocusCount := 0,
    inlineFocusCount := 0 }

end TerminalChatWidget

namespace TerminalChatResponseEditor

/-- Embedding of `TerminalChatResponseEditor._getLanguageFromShell`: the
switch over the shell kind, taking the language service's
`isRegisteredLanguageId` as a function parameter. -/
def getLanguageFromShell (isRegisteredLanguageId : String → Bool)
    (shell : Option String) : String :=
  match shell with
  | none => "plaintext"
  | some sh =>
    if sh = "fish" then
      (if isRegisteredLanguageId "fish" then "fish" else "shellscript")
    else if sh = "zsh" then
      (if isRegisteredLanguageId "zsh" then "zsh" else "shellscript")
    else if sh = "bash" then
      (if isRegisteredLanguageId "bash" then "bash" else "shellscript")
    else if sh = "sh" then "shellscript"
    else if sh = "pwsh" then "powershell"
    else "plaintext"

/-- Resource key of a text model: the components of the synthetic `URI` built
by the response editor's constructor (`path`, `scheme`, `fragment`). -/
structure URI where
  scheme : String
  path : String
  fragment : String
  deriving DecidableEq, Repr

/-- A text model held by the model service: its resource key, its current
content and whether it has been disposed. -/
structure TextModel where
  uri : URI
  value : String
  disposed : Bool
  deriving DecidableEq, Repr

/-- The model service's registry, embedded as an association list from
resource keys to models. -/
structure ModelService where
  models : List (URI × TextModel)
  deriving DecidableEq, Repr

/-- Embedding of `IModelService.getModel`: looks the resource up in the
registry. -/
def ModelService.getModel (ms : ModelService) (resource : URI) : Option TextModel :=
  (ms.models.find? (fun p => p.1 = resource)).map Prod.snd

/-- Embedding of `IModelService.createModel`: registers and returns a fresh,
undisposed model with the given content under the given resource. -/
def ModelService.createModel (ms : ModelService) (value : String) (resource : URI) :
    TextModel × ModelService :=
  let m : TextModel := { uri := resource, value := value, disposed := false }
  (m, { models := (resource, m) :: ms.models })

/-- Embedding of `TerminalChatResponseEditor._getTextModel`: returns the
registered model for the resource when it exists and is not disposed, and
otherwise creates (and returns) a new model whose content is the resource's
fragment. -/
def getTextModel (ms : ModelService) (resource : URI) : TextModel × ModelService :=
  match ms.getModel resource with
  | some existing =>
      if existing.disposed = false then (existing, ms)
      else ms.createModel resource.fragment resource
  | none => ms.createModel resource.fragment resource

end TerminalChatResponseEditor

/-- Client object produced by the telemetry key-or-client factory
(`AppInsightsCore` of `@microsoft/1ds-core-js`); only its identity matters
here. -/
structure AppInsightsCore where
  coreId : Nat

/-- Modelled from the spec: the base class `AbstractOneDataSystemAppender`
(`vs/platform/telemetry/common/1dsAppender.ts`) is not among the provided
sources; the spec says the shim "forwards four constructor arguments to a
base telemetry-appender class" with "no independent behavior".  The
observable result of base-class construction is therefore modelled as a
record of the four constructor arguments in order. -/
structure AbstractOneDataSystemAppender where
  isInternalTelemetry : Bool
  eventPfx : String
  defaultData : Option (List (String × String))
  iKeyOrClientFactory : String ⊕ (Unit → AppInsightsCore)

/-- Modelled from the spec: construction of the base appender class with its
four arguments. -/
def AbstractOneDataSystemAppender.construct (isInternalTelemetry : Bool)
    ( eventPfx : String) (defaultData : Option (List (String × String)))
    (iKeyOrClientFactory : String ⊕ (Unit → AppInsightsCore)) :
    AbstractOneDataSystemAppender :=
  { isInternalTelemetry := isInternalTelemetry,
    eventPfx := eventPfx,
    defaultData := defaultData,
    iKeyOrClientFactory := iKeyOrClientFactory }

/-- Embedding of the `OneDataSystemWebAppender` constructor
(`src/vs/platform/telemetry/browser/1dsAppender.ts`): it calls the base-class
constructor with its own four arguments in the same order and does nothing
else. -/
def OneDataSystemWebAppender.construct (isInternalTelemetry : Bool)
    ( eventPfx : String) (defaultData : Option (List (String × String)))
    (iKeyOrClientFactory : String ⊕ (Unit → AppInsightsCore)) :
    AbstractOneDataSystemAppender :=
  AbstractOneDataSystemAppender.construct isInternalTelemetry eventPfx defaultData
    iKeyOrClientFactory

/-- Sample response editor state used by concrete witnesses: its text carries
surrounding whitespace around `ls -la`. -/
def sampleEditor : ResponseEditorState :=
  { id := 0, text := "  ls -la  ", shellType := some "bash", visible := true }

/-- Sample widget state with the response sub-widget present. -/
def sampleState : TerminalChatWidget :=
  { TerminalChatWidget.initial with responseEditor := some sampleEditor }

/-- Sample resource key as built by the response editor's constructor. -/
def sampleURI : TerminalChatResponseEditor.URI :=
  { scheme := "terminal-inline-chat", path := "terminal-inline-chat-1",
    fragment := "echo hello" }

/-- Sample undisposed text model registered under `sampleURI`. -/
def sampleModel : TerminalChatResponseEditor.TextModel :=
  { uri := sampleURI, value := "echo hello", disposed := false }

/-- Sample model service holding exactly `sampleModel`. -/
def sampleModelService : TerminalChatResponseEditor.ModelService :=
  { models := [(sampleURI, sampleModel)] }

/-- Normal form of `renderTerminalCommand` when the response sub-widget is
absent: the accessibility log grows, a sub-widget with a fresh identity,
the command as text and visible container is constructed, and the identity
counter advances. -/
theorem renderTerminalCommand_absent (s : TerminalChatWidget) (c : String)
    (r : Nat) (sh : Option String) (h : s.responseEditor = none) :
    TerminalChatWidget.renderTerminalCommand s c r sh =
      { s with
        accessibilityResponses := s.accessibilityResponses ++ [(c, r)],
        responseEditor := some
          { id := s.nextEditorId, text := c, shellType := sh, visible := true },
        nextEditorId := s.nextEditorId + 1 } := by
  unfold TerminalChatWidget.renderTerminalCommand
  simp [h]

/-- Normal form of `renderTerminalCommand` when the response sub-widget is
present: the accessibility log grows and the existing sub-widget is shown and
retargeted to the command; identity and counter are untouched. -/
theorem renderTerminalCommand_present (s : TerminalChatWidget)
    (e : ResponseEditorState) (c : String) (r : Nat) (sh : Option String)
    (h : s.responseEditor = some e) :
    TerminalChatWidget.renderTerminalCommand s c r sh =
      { s with
        accessibilityResponses := s.accessibilityResponses ++ [(c, r)],
        responseEditor := some { e with text := c, visible := true } } := by
  unfold TerminalChatWidget.renderTerminalCommand
  simp [h]

/-- C1: `acceptCommand(shouldExecute)` trims the response sub-widget's text;
when the trimmed text is non-empty it forwards exactly the trimmed text and
`shouldExecute` to the terminal's `runCommand` and then hides the panel, and
when the trimmed text is empty it performs no forwarding and leaves the whole
widget state unchanged. -/
theorem acceptCommand_trims_forwards_then_hides
    (s : TerminalChatWidget) (e : ResponseEditorState) (shouldExecute : Bool)
    (h : s.responseEditor = some e) :
    (TerminalChatWidget.jsTrim e.text ≠ "" →
      TerminalChatWidget.acceptCommand s shouldExecute =
        TerminalChatWidget.hide
          { s with runCommands :=
              s.runCommands ++ [(TerminalChatWidget.jsTrim e.text, shouldExecute)] })
    ∧ (TerminalChatWidget.jsTrim e.text = "" →
        TerminalChatWidget.acceptCommand s shouldExecute = s) := by
  unfold TerminalChatWidget.acceptCommand
  rw [h]
  refine ⟨fun hne => ?_, fun heq => ?_⟩
  · simp [hne]
  · simp [heq]

/-- Concrete instance of C1: with response text `"  ls -la  "`, accepting with
the execute flag forwards the trimmed text and the flag, then hides. -/
theorem acceptCommand_trims_forwards_then_hides_witness :
    TerminalChatWidget.acceptCommand sampleState true =
      TerminalChatWidget.hide
        { sampleState with runCommands :=
            sampleState.runCommands ++
              [(TerminalChatWidget.jsTrim sampleEditor.text, true)] } :=
  (acceptCommand_trims_forwards_then_hides sampleState sampleEditor true rfl).1
    (by decide)

/-- C9: when the response sub-widget is absent (never created, or removed by
`hide()`), `acceptCommand` is a complete no-op for either boolean flag: no
command is forwarded and the panel is not hidden, the state being unchanged. -/
theorem acceptCommand_noop_when_absent
    (s : TerminalChatWidget) (shouldExecute : Bool)
    (h : s.responseEditor = none) :
    TerminalChatWidget.acceptCommand s shouldExecute = s := by
  unfold TerminalChatWidget.acceptCommand
  rw [h]

/-- Concrete instance of C9 at the freshly constructed widget state. -/
theorem acceptCommand_noop_when_absent_witness :
    TerminalChatWidget.acceptCommand TerminalChatWidget.initial false =
      TerminalChatWidget.initial :=
  acceptCommand_noop_when_absent TerminalChatWidget.initial false rfl

/-- C4: after `reveal()` the focused and visible context keys are both true;
after `hide()` both are false, the container is hidden, the placeholder (and
info) text is reset, the response sub-widget is disposed and absent, the chat
message, follow-ups, progress and toolbar state are cleared, and focus is
returned to the host terminal. -/
theorem reveal_hide_flags_and_effects (s : TerminalChatWidget) :
    ((TerminalChatWidget.reveal s).focusedContextKey = true
      ∧ (TerminalChatWidget.reveal s).visibleContextKey = true)
    ∧ ((TerminalChatWidget.hide s).focusedContextKey = false
      ∧ (TerminalChatWidget.hide s).visibleContextKey = false
      ∧ (TerminalChatWidget.hide s).containerHidden = true
      ∧ (TerminalChatWidget.hide s).placeholder = TerminalChatWidget.defaultPlaceholder
      ∧ (TerminalChatWidget.hide s).info = TerminalChatWidget.welcomeInfo
      ∧ (TerminalChatWidget.hide s).responseEditor = none
      ∧ (TerminalChatWidget.hide s).chatMessage = none
      ∧ (TerminalChatWidget.hide s).followUps = none
      ∧ (TerminalChatWidget.hide s).progress = false
      ∧ (TerminalChatWidget.hide s).toolbar = false
      ∧ (TerminalChatWidget.hide s).terminalFocusCount = s.terminalFocusCount + 1) :=
  ⟨⟨rfl, rfl⟩, rfl, rfl, rfl, rfl, rfl, rfl, rfl, rfl, rfl, rfl, rfl⟩

/-- C5: `setValue(v)` writes `v` to the nested chat input (the empty string
when `v` is absent); when `v` is absent or empty it also hides any visible
response sub-widget, and when `v` is a non-empty string the response
sub-widget (in particular its visibility) is unchanged. -/
theorem setValue_writes_input_and_hides_response
    (s : TerminalChatWidget) (v : Option String) :
    (TerminalChatWidget.setValue s v).inlineChatValue = v.getD ""
    ∧ ((v = none ∨ v = some "") →
        (TerminalChatWidget.setValue s v).responseEditor =
          s.responseEditor.map
            (fun (e : ResponseEditorState) => { e with visible := false }))
    ∧ (∀ str : String, str ≠ "" → v = some str →
        (TerminalChatWidget.setValue s v).responseEditor = s.responseEditor) := by
  unfold TerminalChatWidget.setValue
  refine ⟨?_, fun h => ?_, fun str hstr hv => ?_⟩
  · split <;> rfl
  · rw [if_pos h]
  · subst hv
    rw [if_neg (by simp [hstr])]

/-- Concrete instance of C5: clearing the value hides the sample response
sub-widget. -/
theorem setValue_writes_input_and_hides_response_witness :
    (TerminalChatWidget.setValue sampleState (some "")).responseEditor =
      sampleState.responseEditor.map
        (fun (e : ResponseEditorState) => { e with visible := false }) :=
  (setValue_writes_input_and_hides_response sampleState (some "")).2.1 (Or.inr rfl)

/-- C6: two consecutive `renderTerminalCommand` calls with no intervening
`hide()` leave the response sub-widget field pointing to the instance created
(or reused) by the first call: the second call shows that same instance (same
identity) and replaces its text with the second command, and the construction
counter does not advance between the two calls. -/
theorem renderTerminalCommand_reuses_instance
    (s : TerminalChatWidget) (c1 c2 : String) (r1 r2 : Nat)
    (sh1 sh2 : Option String) :
    ∃ e1 e2 : ResponseEditorState,
      (TerminalChatWidget.renderTerminalCommand s c1 r1 sh1).responseEditor = some e1
      ∧ (TerminalChatWidget.renderTerminalCommand
          (TerminalChatWidget.renderTerminalCommand s c1 r1 sh1) c2 r2 sh2).responseEditor
            = some e2
      ∧ e2.id = e1.id ∧ e2.visible = true ∧ e2.text = c2
      ∧ (TerminalChatWidget.renderTerminalCommand
          (TerminalChatWidget.renderTerminalCommand s c1 r1 sh1) c2 r2 sh2).nextEditorId
            = (TerminalChatWidget.renderTerminalCommand s c1 r1 sh1).nextEditorId := by
  cases h : s.responseEditor with
  | none =>
      rw [renderTerminalCommand_absent s c1 r1 sh1 h]
      rw [renderTerminalCommand_present _
        { id := s.nextEditorId, text := c1, shellType := sh1, visible := true }
        c2 r2 sh2 rfl]
      exact ⟨_, _, rfl, rfl, rfl, rfl, rfl, rfl⟩
  | some e =>
      rw [renderTerminalCommand_present s e c1 r1 sh1 h]
      rw [renderTerminalCommand_present _ { e with text := c1, visible := true }
        c2 r2 sh2 rfl]
      exact ⟨_, _, rfl, rfl, rfl, rfl, rfl, rfl⟩

/-- C10: with a response sub-widget present, `renderMessage` hides that
sub-widget but does not dispose it or clear its text — the same instance with
its current text remains held — while the chat message is set, one
accessibility notification is appended, and every other component of the
panel state is unchanged. -/
theorem renderMessage_hides_but_keeps_instance
    (s : TerminalChatWidget) (e : ResponseEditorState) (msg : String)
    (accId : Nat) (reqId : String) (h : s.responseEditor = some e) :
    (TerminalChatWidget.renderMessage s msg accId reqId).responseEditor =
        some { e with visible := false }
    ∧ (TerminalChatWidget.renderMessage s msg accId reqId).chatMessage =
        some ({ message := msg, requestId := reqId, providerId := "terminal" } :
          ChatMessage)
    ∧ (TerminalChatWidget.renderMessage s msg accId reqId).accessibilityResponses =
        s.accessibilityResponses ++ [(msg, accId)]
    ∧ (TerminalChatWidget.renderMessage s msg accId reqId).containerHidden =
        s.containerHidden
    ∧ (TerminalChatWidget.renderMessage s msg accId reqId).placeholder = s.placeholder
    ∧ (TerminalChatWidget.renderMessage s msg accId reqId).info = s.info
    ∧ (TerminalChatWidget.renderMessage s msg accId reqId).inlineChatValue =
        s.inlineChatValue
    ∧ (TerminalChatWidget.renderMessage s msg accId reqId).nextEditorId = s.nextEditorId
    ∧ (TerminalChatWidget.renderMessage s msg accId reqId).followUps = s.followUps
    ∧ (TerminalChatWidget.renderMessage s msg accId reqId).progress = s.progress
    ∧ (TerminalChatWidget.renderMessage s msg accId reqId).toolbar = s.toolbar
    ∧ (TerminalChatWidget.renderMessage s msg accId reqId).focusedContextKey =
        s.focusedContextKey
    ∧ (TerminalChatWidget.renderMessage s msg accId reqId).visibleContextKey =
        s.visibleContextKey
    ∧ (TerminalChatWidget.renderMessage s msg accId reqId).runCommands = s.runCommands
    ∧ (TerminalChatWidget.renderMessage s msg accId reqId).terminalFocusCount =
        s.terminalFocusCount
    ∧ (TerminalChatWidget.renderMessage s msg accId reqId).inlineFocusCount =
        s.inlineFocusCount := by
  refine ⟨?_, rfl, rfl, rfl, rfl, rfl, rfl, rfl, rfl, rfl, rfl, rfl, rfl, rfl,
    rfl, rfl⟩
  simp [TerminalChatWidget.renderMessage, h]

/-- Concrete instance of C10: rendering a message on the sample state hides
the sample sub-widget but keeps its identity and text. -/
theorem renderMessage_hides_but_keeps_instance_witness :
    (TerminalChatWidget.renderMessage sampleState "done" 3 "req-1").responseEditor =
      some { sampleEditor with visible := false } :=
  (renderMessage_hides_but_keeps_instance sampleState sampleEditor "done" 3
    "req-1" rfl).1

/-- Counterexample to C2: with a language registry in which no language is
registered, the shell kind `pwsh` — whose specific language choice
`powershell` is then not registered — still maps to `powershell`, not to the
generic `shellscript`: the code performs no registry fallback for `pwsh`. -/
theorem getLanguageFromShell_pwsh_no_fallback :
    TerminalChatResponseEditor.getLanguageFromShell (fun _ => false) (some "pwsh")
        = "powershell"
    ∧ (fun (_ : String) => false) "powershell" = false
    ∧ "powershell" ≠ "shellscript" :=
  ⟨rfl, rfl, by decide⟩

/-- C2 (amended): for the shell kinds `fish`, `zsh` and `bash`, when the
specific language choice is not registered with the language service the
mapping falls back to the generic `shellscript` instead of returning the
unavailable language; `sh` always maps to `shellscript`; `pwsh` maps to
`powershell` unconditionally, without a registry fallback. -/
theorem getLanguageFromShell_fallbacks (isReg : String → Bool) :
    (isReg "fish" = false →
      TerminalChatResponseEditor.getLanguageFromShell isReg (some "fish")
        = "shellscript")
    ∧ (isReg "zsh" = false →
      TerminalChatResponseEditor.getLanguageFromShell isReg (some "zsh")
        = "shellscript")
    ∧ (isReg "bash" = false →
      TerminalChatResponseEditor.getLanguageFromShell isReg (some "bash")
        = "shellscript")
    ∧ TerminalChatResponseEditor.getLanguageFromShell isReg (some "sh")
        = "shellscript"
    ∧ TerminalChatResponseEditor.getLanguageFromShell isReg (some "pwsh")
        = "powershell" := by
  refine ⟨fun h => ?_, fun h => ?_, fun h => ?_, ?_, ?_⟩ <;>
    simp [TerminalChatResponseEditor.getLanguageFromShell, *]

/-- Concrete instance of the amended C2: with nothing registered, `fish`
falls back to `shellscript`. -/
theorem getLanguageFromShell_fallbacks_witness :
    TerminalChatResponseEditor.getLanguageFromShell (fun _ => false) (some "fish")
      = "shellscript" :=
  (getLanguageFromShell_fallbacks (fun _ => false)).1 rfl

/-- C3: the shell-kind to language mapping is a total deterministic function
of the shell kind and the language registry: `fish`, `zsh` and `bash` map to
themselves when registered and to `shellscript` otherwise, `sh` maps to
`shellscript`, `pwsh` to `powershell`, and every other shell kind — the
absent one included — maps to `plaintext`. -/
theorem getLanguageFromShell_total (isReg : String → Bool) :
    (TerminalChatResponseEditor.getLanguageFromShell isReg (some "fish")
        = if isReg "fish" then "fish" else "shellscript")
    ∧ (TerminalChatResponseEditor.getLanguageFromShell isReg (some "zsh")
        = if isReg "zsh" then "zsh" else "shellscript")
    ∧ (TerminalChatResponseEditor.getLanguageFromShell isReg (some "bash")
        = if isReg "bash" then "bash" else "shellscript")
    ∧ TerminalChatResponseEditor.getLanguageFromShell isReg (some "sh")
        = "shellscript"
    ∧ TerminalChatResponseEditor.getLanguageFromShell isReg (some "pwsh")
        = "powershell"
    ∧ TerminalChatResponseEditor.getLanguageFromShell isReg none = "plaintext"
    ∧ (∀ sh : String,
        sh ∉ (["fish", "zsh", "bash", "sh", "pwsh"] : List String) →
        TerminalChatResponseEditor.getLanguageFromShell isReg (some sh)
          = "plaintext") := by
  refine ⟨?_, ?_, ?_, ?_, ?_, rfl, ?_⟩
  · simp [TerminalChatResponseEditor.getLanguageFromShell]
  · simp [TerminalChatResponseEditor.getLanguageFromShell]
  · simp [TerminalChatResponseEditor.getLanguageFromShell]
  · simp [TerminalChatResponseEditor.getLanguageFromShell]
  · simp [TerminalChatResponseEditor.getLanguageFromShell]
  · intro sh h
    simp only [List.mem_cons, List.not_mem_nil, or_false, not_or] at h
    obtain ⟨h1, h2, h3, h4, h5⟩ := h
    simp [TerminalChatResponseEditor.getLanguageFromShell, h1, h2, h3, h4, h5]

/-- Concrete instance of C3: an unrecognized shell kind maps to `plaintext`
even when every language is registered. -/
theorem getLanguageFromShell_total_witness :
    TerminalChatResponseEditor.getLanguageFromShell (fun _ => true) (some "ruby")
      = "plaintext" :=
  (getLanguageFromShell_total (fun _ => true)).2.2.2.2.2.2 "ruby" (by decide)

/-- C7: resolving the backing text model for a resource key returns the
existing model registered under that key when one exists and is not disposed
(leaving the registry unchanged), and otherwise falls back to creating and
returning a fresh model whose content is the initial command text carried in
the key's fragment. -/
theorem getTextModel_existing_or_create
    (ms : TerminalChatResponseEditor.ModelService)
    (resource : TerminalChatResponseEditor.URI) :
    (∀ m : TerminalChatResponseEditor.TextModel,
      ms.getModel resource = some m → m.disposed = false →
        TerminalChatResponseEditor.getTextModel ms resource = (m, ms))
    ∧ ((∀ m : TerminalChatResponseEditor.TextModel,
          ms.getModel resource = some m → m.disposed = true) →
        TerminalChatResponseEditor.getTextModel ms resource =
          ms.createModel resource.fragment resource)
    ∧ (ms.createModel resource.fragment resource).1.value = resource.fragment := by
  refine ⟨fun m hm hd => ?_, fun hall => ?_, rfl⟩
  · unfold TerminalChatResponseEditor.getTextModel
    rw [hm]
    simp [hd]
  · unfold TerminalChatResponseEditor.getTextModel
    cases hm : ms.getModel resource with
    | none => rfl
    | some m => simp [hall m hm]

/-- Concrete instance of C7: the registered, undisposed sample model is
returned as is, with the registry unchanged. -/
theorem getTextModel_existing_or_create_witness :
    TerminalChatResponseEditor.getTextModel sampleModelService sampleURI =
      (sampleModel, sampleModelService) :=
  (getTextModel_existing_or_create sampleModelService sampleURI).1 sampleModel
    (by decide) rfl

/-- C8: constructing the web telemetry appender with the internal-telemetry
flag, event-name prefix, optional default-properties mapping and
key-or-client-factory is observationally equivalent to constructing the base
appender class with the same four arguments in the same order: the subclass
adds no operations, state or error conditions of its own. -/
theorem oneDataSystemWebAppender_refines_base (isInternalTelemetry : Bool)
    ( eventPfx : String) (defaultData : Option (List (String × String)))
    (iKeyOrClientFactory : String ⊕ (Unit → AppInsightsCore)) :
    OneDataSystemWebAppender.construct isInternalTelemetry eventPfx defaultData
        iKeyOrClientFactory =
      AbstractOneDataSystemAppender.construct isInternalTelemetry eventPfx
        defaultData iKeyOrClientFactory :=
  rfl

end TerminalChatSpec
